import Mathlib

/-!
Verification of the multi-device BLE telemetry pipeline
(`data_collection/src/app.py`).

The Python source is shallowly embedded: pure decoding code becomes Lean
functions on byte lists (bytes are naturals `< 256`, machine floats that
carry exact scale arithmetic are modelled as rationals, IEEE-754 floats
coming off the wire are kept as their 32-bit little-endian words), the
`asyncio.Event` flag plumbing becomes explicit boolean state, and the
observable effects of the watcher/supervisor code become explicit result
structures.
-/

/-- A Python value as it appears in the readings lists and JSON dictionaries
of the app: a number (timestamps, scalars) or a tuple of numbers (the
quaternion tuple stored by `QuatSensor.callback`). -/
inductive PyVal where
  | num (q : ℚ)
  | tup (l : List ℚ)
deriving DecidableEq, Repr

/-- Little-endian signed 16-bit reinterpretation of a 16-bit word, as
`struct.unpack` with format character h produces for each field. -/
def toInt16 (u : ℕ) : ℤ :=
  if u % 65536 < 32768 then ((u % 65536 : ℕ) : ℤ) else ((u % 65536 : ℕ) : ℤ) - 65536

/-- The 32-bit little-endian word starting at offset `i` of a byte list
(the bit pattern of one f field of `struct.unpack`). -/
def word32LE (bs : List ℕ) (i : ℕ) : ℕ :=
  bs.getD i 0 + 256 * bs.getD (i + 1) 0 + 65536 * bs.getD (i + 2) 0 +
    16777216 * bs.getD (i + 3) 0

/-- Embedding of `QuatSensor.callback`: `struct.unpack("<ffff", data[:-2])`.  The slice
`data[:-2]` drops the last two bytes; unpacking requires the remaining
slice to be exactly 16 bytes and yields four little-endian 32-bit floats,
kept here as their 32-bit words. -/
def quat_decode_words (data : List ℕ) : Option (ℕ × ℕ × ℕ × ℕ) :=
  let trimmed := data.take (data.length - 2)
  if trimmed.length = 16 then
    some (word32LE trimmed 0, word32LE trimmed 4, word32LE trimmed 8, word32LE trimmed 12)
  else none

/-- Embedding of `MovementSensorMPU9250.callback`: `struct.unpack("<hhhhhhhhh", data)`,
nine little-endian signed 16-bit integers from an 18-byte payload. -/
def unpack9h (data : List ℕ) : Option (List ℤ) :=
  if data.length = 18 then
    some ((List.range 9).map (fun i => toInt16 (data.getD (2 * i) 0 + 256 * data.getD (2 * i + 1) 0)))
  else none

/-- Embedding of `GyroscopeSensorMovementSensorMPU9250.cb_sensor`: `data[0:3]`, each
value scaled by `500.0/65536.0`. -/
def gyro_cb (d : List ℤ) : List ℚ :=
  (d.take 3).map (fun v => (v : ℚ) * (500 / 65536))

/-- Embedding of `AccelerometerSensorMovementSensorMPU9250.cb_sensor`: `data[3:6]`, each
value scaled by `8.0/32768.0`. -/
def accel_cb (d : List ℤ) : List ℚ :=
  ((d.drop 3).take 3).map (fun v => (v : ℚ) * (8 / 32768))

/-- Embedding of `MagnetometerSensorMovementSensorMPU9250.cb_sensor`: `data[6:9]`, each
value scaled by `4912.0/32760`. -/
def mag_cb (d : List ℤ) : List ℚ :=
  ((d.drop 6).take 3).map (fun v => (v : ℚ) * (4912 / 32760))

/-- Embedding of the store in `QuatSensor.callback`: `self.readings = [getTimeStamp(), tuple(rawVals)]`,
a two-element Python list holding the timestamp and the quaternion tuple. -/
def quat_readings (ts : ℚ) (quat : List ℚ) : List PyVal :=
  [PyVal.num ts, PyVal.tup quat]

/-- The JSON object built each cycle in `run` (lines 378-394):
`timestamp = readings[0]`, keys `[i + postfix for i in ["q0_","q1_","q2_","q3_"]]`,
values `readings[1:]`, `datalist = dict(zip(sensor_keys, sensor_val))`, then
`datalist["Timestamp"] = timestamp`.  The role suffix (called postfix in the
source) is `role` here.  Python `zip` truncates to the shorter operand,
exactly as `List.zip`. -/
def run_build_datalist (role : String) (readings : List PyVal) : List (String × PyVal) :=
  let timestamp := readings.headD (PyVal.num 0)
  let l := ["q0_", "q1_", "q2_", "q3_"]
  let sensor_keys := l.map (fun i => i ++ role)
  let sensor_val := readings.drop 1
  let datalist := sensor_keys.zip sensor_val
  datalist ++ [("Timestamp", timestamp)]

/-- The connection-liveness check at the top of the `run` loop body
(lines 354-363): if the client is not connected, `flag.clear()` then
`raise Exception`; otherwise `flag.set()` if it is not already set.
Result: (value of this session's readiness flag afterwards, whether the
fatal exception was raised). -/
def run_liveness_step (connected : Bool) (flag : Bool) : Bool × Bool :=
  if !connected then (false, true)
  else (if !flag then (true, false) else (flag, false))

/-- The indicator branch of the `run` loop (lines 346-352): code `0x05`
(red + buzzer) when `warn_flag.is_set() or (count > 2 and count < 5)`,
else code `0x02` (green). -/
def indicator_code (warn : Bool) (count : ℕ) : ℕ :=
  if warn || (decide (2 < count) && decide (count < 5)) then 5 else 2

/-- A waiter executing `for f in flags: await f.wait()` (lines 367-369) has
passed flags `0..idx-1` and currently awaits flag `idx`; one scheduling step
advances it past flag `idx` exactly when that flag is currently set. -/
def waiter_step (flags : List Bool) (idx : ℕ) : ℕ :=
  if flags.getD idx false then idx + 1 else idx

/-- Embedding of `asyncio.Event.set` on the flag at position `i`. -/
def event_set (flags : List Bool) (i : ℕ) : List Bool := flags.set i true

/-- Embedding of `asyncio.Event.clear` on the flag at position `i`. -/
def event_clear (flags : List Bool) (i : ℕ) : List Bool := flags.set i false

/-- The sequential wait loop has resolved when the waiter has passed every
flag. -/
def wait_all_resolved (flags : List Bool) (idx : ℕ) : Prop := flags.length ≤ idx

instance (flags : List Bool) (idx : ℕ) : Decidable (wait_all_resolved flags idx) :=
  inferInstanceAs (Decidable (flags.length ≤ idx))

/-- A JSON dictionary, as a partial map from keys to values. -/
def JDict : Type := String → Option PyVal

/-- Python `d.update(e)`: keys of `e` overwrite keys of `d`. -/
def dict_update (d e : JDict) : JDict :=
  fun k => match e k with
  | some v => some v
  | none => d k

/-- Embedding of `get_data_func` (lines 487-501): one file path per name in
`BLE_NAME_LIST` in that fixed order; if all files exist, their JSON
dictionaries are merged by repeated `send_dict.update(dict_data)` starting
from the empty dictionary, otherwise the function returns `None`.  A file is
`some d` when it exists with contents `d`, `none` when missing. -/
def get_data_func (files : List (Option JDict)) : Option JDict :=
  if files.all (fun f => f.isSome) then
    some (files.foldl
      (fun acc f => match f with
        | some d => dict_update acc d
        | none => acc)
      (fun _ => none))
  else none

/-- Observable effects of one call to `mqtt_send_data` (lines 511-515):
the MQTT publish call is commented out in the source, so the list of
published messages is empty; the function prints the merged dictionary and
the string Published. -/
structure MqttSendEffects where
  published : List JDict
  printedPublished : Bool

/-- Embedding of `mqtt_send_data`, effects visible on the MQTT side: no publish happens
(the `mqtt_client.publish(...)` line is a comment), and Published is
printed unconditionally. -/
def mqtt_send_data (_send_dict : Option JDict) : MqttSendEffects :=
  { published := [], printedPublished := true }

/-- One iteration of the `mqtt_watcher` loop (lines 503-509): wait until
every per-device mqtt flag is set, clear them all, then call
`mqtt_send_data`.  Returns `none` while blocked (some flag still unset),
otherwise the flag state after the cycle and the effects of the send. -/
def mqtt_watcher_cycle (flags : List Bool) (files : List (Option JDict)) :
    Option (List Bool × MqttSendEffects) :=
  if flags.all id then
    some (flags.map (fun _ => false), mqtt_send_data (get_data_func files))
  else none

/-- The two run modes selected by the module-level `mode` variable. -/
inductive Mode where
  | rtScan
  | exportData
deriving DecidableEq, Repr

/-- Observable behaviour of the `except` branch of `main` (lines 473-483)
after any task raises a fatal error. -/
structure ErrorHandling where
  cancelsAllTasks : Bool
  callsStopOnSessions : Bool
  backoffSeconds : Option ℕ
  restartsCohort : Bool
deriving DecidableEq, Repr

/-- The `except` branch of `main`: every task in `tasks` is cancelled; no
disconnect or stop call is made on the sessions there; in `MODE_RT_SCAN`
the handler sleeps 5 seconds and falls back into the `while True` loop
(restarting discovery and spawning fresh tasks), in any other mode it
attempts to close the event loop and does not restart. -/
def main_on_error (mode : Mode) : ErrorHandling :=
  { cancelsAllTasks := true
    callsStopOnSessions := false
    backoffSeconds := if mode = Mode.rtScan then some 5 else none
    restartsCohort := mode = Mode.rtScan }

/-- Embedding of `OpticalSensor.callback` (lines 229-233): `raw = struct.unpack("<h", data)[0]`
is the signed little-endian 16-bit integer of the two payload bytes;
`m = raw & 0xFFF`, `e = (raw & 0xF000) >> 12`, and the reported reading is
`0.01 * (m << e)`.  Python bitwise operators on (possibly negative)
integers are two's-complement, which is exactly `Int.land` and the `ℤ`
shift instances. -/
def optical_lux (b0 b1 : ℕ) : ℚ :=
  let raw : ℤ := toInt16 (b0 + 256 * b1)
  let m : ℤ := Int.land raw 0xFFF
  let e : ℤ := (Int.land raw 0xF000) >>> (12 : ℤ)
  (1 / 100 : ℚ) * ((m <<< e : ℤ) : ℚ)

/-- Example per-device JSON dictionary for a neck device: Timestamp 1,
q0_neck 10. -/
def exDictA : JDict :=
  fun k => if k = "Timestamp" then some (PyVal.num 1)
    else if k = "q0_neck" then some (PyVal.num 10) else none

/-- Example per-device JSON dictionary for a back device: Timestamp 2,
q0_back 20. -/
def exDictB : JDict :=
  fun k => if k = "Timestamp" then some (PyVal.num 2)
    else if k = "q0_back" then some (PyVal.num 20) else none

/-- C1: in live-scan mode the per-device JSON object is claimed to contain
exactly the five keys q0_role, q1_role, q2_role, q3_role, Timestamp with the
four quaternion components as the q-values.  In the code,
`sensor_val = readings[1:]` is the one-element list holding the whole
quaternion tuple, so `zip` truncates the four keys to one pair: the object
actually has exactly two keys, q0_role (bound to the whole tuple) and
Timestamp. -/
theorem C1_live_json_object_two_keys (role : String) (ts : ℚ) (quat : List ℚ) :
    run_build_datalist role (quat_readings ts quat) =
      [("q0_" ++ role, PyVal.tup quat), ("Timestamp", PyVal.num ts)] ∧
    (run_build_datalist role (quat_readings ts quat)).length = 2 := ⟨rfl, rfl⟩

/-- C8: whenever the liveness check observes the connection dead and raises
the fatal error, this session's readiness flag is left cleared. -/
theorem C8_liveness_clears_flag_on_error (connected flag : Bool)
    (h : (run_liveness_step connected flag).2 = true) :
    (run_liveness_step connected flag).1 = false := by
  cases connected <;> cases flag <;> simp_all [run_liveness_step]

/-- C8 witness: with the connection dead and the flag previously set, the
step raises and leaves the flag cleared. -/
theorem C8_liveness_witness :
    (run_liveness_step false true).2 = true ∧ (run_liveness_step false true).1 = false :=
  ⟨by decide, C8_liveness_clears_flag_on_error false true (by decide)⟩

/-- C9 counterexample: the indicator code is not a function of the warning
flag alone.  With the warning flag unset in both states, calibration count 3
(reached during the first live-scan cycles) buzzes with code 5 while count 5
(the steady state) shows green code 2. -/
theorem C9_indicator_not_function_of_warn_alone :
    indicator_code false 3 ≠ indicator_code false 5 := by decide

/-- C9 amended: the indicator code is a function of the warning flag and the
calibration counter: two states agreeing on the warning flag and on whether
the counter lies strictly between 2 and 5 get the same code. -/
theorem C9_indicator_function_of_warn_and_count (w : Bool) (c c' : ℕ)
    (h : (2 < c ∧ c < 5) ↔ (2 < c' ∧ c' < 5)) :
    indicator_code w c = indicator_code w c' := by
  have h2 : (decide (2 < c) && decide (c < 5)) = (decide (2 < c') && decide (c' < 5)) := by
    rcases h with ⟨h1, h2⟩
    by_cases hc : 2 < c ∧ c < 5
    · rcases h1 hc with ⟨hc1', hc2'⟩
      simp [hc.1, hc.2, hc1', hc2']
    · have hc' : ¬(2 < c' ∧ c' < 5) := fun hx => hc (h2 hx)
      rcases Decidable.not_and_iff_or_not.mp hc with hx | hx <;>
        rcases Decidable.not_and_iff_or_not.mp hc' with hy | hy <;>
        simp [hx, hy]
  unfold indicator_code
  rw [h2]

/-- C9 amended witness: counts 3 and 4 agree on the calibration window, so
with the warning flag unset both produce the same code. -/
theorem C9_indicator_witness :
    ((2 < 3 ∧ 3 < 5) ↔ (2 < 4 ∧ 4 < 5)) ∧ indicator_code false 3 = indicator_code false 4 :=
  ⟨by decide, C9_indicator_function_of_warn_and_count false 3 4 (by decide)⟩

/-- C3 counterexample: the claim that every fatal error leads, in both
modes, to best-effort disconnects, a 5 second backoff and a cohort restart
fails: in export mode the handler does not restart at all, and in neither
mode does it call stop or disconnect on the sessions. -/
theorem C3_export_mode_no_restart :
    (main_on_error Mode.exportData).restartsCohort = false ∧
    (main_on_error Mode.rtScan).callsStopOnSessions = false := by decide

/-- C3 amended: on any fatal error the handler cancels every remaining
task and performs no per-session disconnects; in live-scan mode it waits
5 seconds and restarts the discovery-spawn-wait cycle, while in export mode
it does not restart (it attempts to close the event loop). -/
theorem C3_supervisor_error_handling :
    main_on_error Mode.rtScan =
      { cancelsAllTasks := true, callsStopOnSessions := false,
        backoffSeconds := some 5, restartsCohort := true } ∧
    main_on_error Mode.exportData =
      { cancelsAllTasks := true, callsStopOnSessions := false,
        backoffSeconds := none, restartsCohort := false } := by decide

/-- C2: the claim says one MQTT message is published per full across-device
cycle.  In the code the cycle does fire once per all-flags-set round and
clears every flag, but the publish call itself is a comment: the cycle
publishes zero messages while still printing Published. -/
theorem C2_mqtt_cycle_publishes_nothing (flags : List Bool) (files : List (Option JDict))
    (h : flags.all id = true) :
    mqtt_watcher_cycle flags files =
      some (flags.map (fun _ => false), mqtt_send_data (get_data_func files)) ∧
    (mqtt_send_data (get_data_func files)).published.length = 0 ∧
    (mqtt_send_data (get_data_func files)).printedPublished = true := by
  refine ⟨?_, rfl, rfl⟩
  simp [mqtt_watcher_cycle, h]

/-- C2 witness: with all three per-device flags set and no files present,
the cycle fires, clears the flags, and publishes nothing. -/
theorem C2_mqtt_cycle_witness :
    [true, true, true].all id = true ∧
    mqtt_watcher_cycle [true, true, true] [] =
      some ([false, false, false], mqtt_send_data (get_data_func [])) ∧
    (mqtt_send_data (get_data_func [])).published.length = 0 ∧
    (mqtt_send_data (get_data_func [])).printedPublished = true :=
  ⟨by decide, C2_mqtt_cycle_publishes_nothing [true, true, true] [] (by decide)⟩

/-- C4 counterexample: with two devices, a waiter that has already passed
flag 0 resolves after `clear(0)` followed by `set(1)`, even though flag 0 is
unset and was never re-set: clearing one identity does not re-block waiters
that have moved past it. -/
theorem C4_clear_does_not_reblock_passed_waiter :
    waiter_step [true, false] 0 = 1 ∧
    waiter_step (event_set (event_clear [true, false] 0) 1) 1 = 2 ∧
    wait_all_resolved (event_set (event_clear [true, false] 0) 1) 2 ∧
    (event_set (event_clear [true, false] 0) 1).getD 0 false = false := by decide

/-- C4 amended: the wait loop scans the flags sequentially: a waiter blocks
exactly while its current flag is unset, it advances past a position only
when that flag is observed set, and clearing any other identity's flag has
no effect on the waiter's current step. -/
theorem C4_sequential_wait_properties (flags : List Bool) (idx : ℕ) :
    (flags.getD idx false = false → waiter_step flags idx = idx) ∧
    (waiter_step flags idx = idx + 1 → flags.getD idx false = true) ∧
    (∀ j, j ≠ idx → waiter_step (event_clear flags j) idx = waiter_step flags idx) := by
  refine ⟨fun h => by unfold waiter_step; rw [h]; simp, fun h => ?_, fun j hj => ?_⟩
  · by_contra hfalse
    rw [Bool.not_eq_true] at hfalse
    unfold waiter_step at h
    rw [hfalse] at h
    simp at h
  · unfold waiter_step event_clear
    rw [List.getD_eq_getElem?_getD, List.getD_eq_getElem?_getD,
      List.getElem?_set_ne (fun hx => hj hx)]

/-- C4 amended witness: at flag state [false, true], a waiter at position 0
is blocked, a waiter at position 1 advances only because flag 1 is set, and
clearing flag 1 does not change the step of a waiter at position 0. -/
theorem C4_sequential_wait_witness :
    waiter_step [false, true] 0 = 0 ∧
    [false, true].getD 1 false = true ∧
    waiter_step (event_clear [false, true] 1) 0 = waiter_step [false, true] 0 := by
  have h := C4_sequential_wait_properties [false, true] 0
  exact ⟨h.1 (by decide), by decide, h.2.2 1 (by decide)⟩

/-- C5: the quaternion decode unpacks four little-endian 32-bit floats
(kept as 32-bit words here) from the first 16 bytes of the 18-byte
notification; the trailing two sequence-counter bytes are dropped and have
no influence on the result. -/
theorem C5_quat_first16_bytes (pre : List ℕ) (a b a' b' : ℕ) (h : pre.length = 16) :
    quat_decode_words (pre ++ [a, b]) =
      some (word32LE pre 0, word32LE pre 4, word32LE pre 8, word32LE pre 12) ∧
    quat_decode_words (pre ++ [a, b]) = quat_decode_words (pre ++ [a', b']) := by
  have htake : ∀ x y : ℕ, (pre ++ [x, y]).take ((pre ++ [x, y]).length - 2) = pre := by
    intro x y
    have hl : (pre ++ [x, y]).length = 18 := by simp [h]
    rw [hl]
    show (pre ++ [x, y]).take 16 = pre
    rw [← h, List.take_left]
  constructor
  · unfold quat_decode_words
    rw [htake a b]
    simp [h]
  · unfold quat_decode_words
    rw [htake a b, htake a' b']

/-- C5 witness: a concrete 18-byte payload; the four words come from the
first 16 bytes and the result is unchanged when only the trailing two bytes
differ. -/
theorem C5_quat_witness :
    ([1, 0, 0, 0, 2, 0, 0, 0, 3, 0, 0, 0, 4, 0, 0, 0] : List ℕ).length = 16 ∧
    quat_decode_words ([1, 0, 0, 0, 2, 0, 0, 0, 3, 0, 0, 0, 4, 0, 0, 0] ++ [9, 9]) =
      some (1, 2, 3, 4) ∧
    quat_decode_words ([1, 0, 0, 0, 2, 0, 0, 0, 3, 0, 0, 0, 4, 0, 0, 0] ++ [9, 9]) =
      quat_decode_words ([1, 0, 0, 0, 2, 0, 0, 0, 3, 0, 0, 0, 4, 0, 0, 0] ++ [7, 8]) := by
  have h := C5_quat_first16_bytes
    [1, 0, 0, 0, 2, 0, 0, 0, 3, 0, 0, 0, 4, 0, 0, 0] 9 9 7 8 (by decide)
  exact ⟨by decide, by rw [h.1]; decide, h.2⟩

/-- C6: an 18-byte motion payload unpacks to nine signed 16-bit integers;
the gyroscope callback consumes exactly the first three scaled by
500/65536, the accelerometer the next three scaled by 8/32768, the
magnetometer the last three scaled by 4912/32760, and the three raw slices
have length three each and concatenate back to the full list of nine, so
the decoders partition the payload with no overlap and no value dropped. -/
theorem C6_motion_partition (data : List ℕ) (h : data.length = 18) :
    ∃ d, unpack9h data = some d ∧ d.length = 9 ∧
      (d.take 3).length = 3 ∧ ((d.drop 3).take 3).length = 3 ∧
      ((d.drop 6).take 3).length = 3 ∧
      d.take 3 ++ ((d.drop 3).take 3) ++ ((d.drop 6).take 3) = d ∧
      gyro_cb d = (d.take 3).map (fun v => (v : ℚ) * (500 / 65536)) ∧
      accel_cb d = ((d.drop 3).take 3).map (fun v => (v : ℚ) * (8 / 32768)) ∧
      mag_cb d = ((d.drop 6).take 3).map (fun v => (v : ℚ) * (4912 / 32760)) := by
  refine ⟨(List.range 9).map
      (fun i => toInt16 (data.getD (2 * i) 0 + 256 * data.getD (2 * i + 1) 0)),
    by simp [unpack9h, h], ?_⟩
  have hd9 : ((List.range 9).map
      (fun i => toInt16 (data.getD (2 * i) 0 + 256 * data.getD (2 * i + 1) 0))).length = 9 := by
    simp
  generalize ((List.range 9).map
      (fun i => toInt16 (data.getD (2 * i) 0 + 256 * data.getD (2 * i + 1) 0))) = d at hd9 ⊢
  have h63 : (d.drop 6).take 3 = (d.drop 3).drop 3 := by
    rw [List.drop_drop]
    exact List.take_of_length_le (by simp [hd9])
  refine ⟨hd9, by simp [hd9], by simp [hd9], by simp [hd9], ?_, rfl, rfl, rfl⟩
  rw [List.append_assoc, h63, List.take_append_drop, List.take_append_drop]

/-- C6 witness: the all-zero 18-byte payload decodes to nine zero integers
whose three slices concatenate back to the whole list. -/
theorem C6_motion_witness :
    (List.replicate 18 0 : List ℕ).length = 18 ∧
    ∃ d, unpack9h (List.replicate 18 0) = some d ∧ d.length = 9 ∧
      (d.take 3).length = 3 ∧ ((d.drop 3).take 3).length = 3 ∧
      ((d.drop 6).take 3).length = 3 ∧
      d.take 3 ++ ((d.drop 3).take 3) ++ ((d.drop 6).take 3) = d ∧
      gyro_cb d = (d.take 3).map (fun v => (v : ℚ) * (500 / 65536)) ∧
      accel_cb d = ((d.drop 3).take 3).map (fun v => (v : ℚ) * (8 / 32768)) ∧
      mag_cb d = ((d.drop 6).take 3).map (fun v => (v : ℚ) * (4912 / 32760)) :=
  ⟨by decide, C6_motion_partition (List.replicate 18 0) (by decide)⟩

theorem land_low_mask (u : ℕ) : u &&& 4095 = u % 4096 := by
  apply Nat.eq_of_testBit_eq
  intro i
  have h1 : (4095 : ℕ) = 2 ^ 12 - 1 := by norm_num
  have h2 : (4096 : ℕ) = 2 ^ 12 := by norm_num
  rw [Nat.testBit_land, h1, h2, Nat.testBit_two_pow_sub_one, Nat.testBit_mod_two_pow,
    Bool.and_comm]

theorem testBit_hi_mask (k : ℕ) :
    (61440 : ℕ).testBit k = (decide (k ≥ 12) && decide (k - 12 < 4)) := by
  have h : (61440 : ℕ) = 15 <<< 12 := by decide
  have h15 : (15 : ℕ) = 2 ^ 4 - 1 := by norm_num
  rw [h, Nat.testBit_shiftLeft, h15, Nat.testBit_two_pow_sub_one]

theorem land_high_mask (u : ℕ) (hu : u < 65536) : (u &&& 61440) >>> 12 = u / 4096 := by
  apply Nat.eq_of_testBit_eq
  intro i
  have h2 : (4096 : ℕ) = 2 ^ 12 := by norm_num
  rw [Nat.testBit_shiftRight, Nat.testBit_land, testBit_hi_mask, h2,
    ← Nat.shiftRight_eq_div_pow, Nat.testBit_shiftRight]
  by_cases h4 : i < 4
  · simp [h4, Nat.lt_irrefl]
  · have hbig : u < 2 ^ (12 + i) := by
      calc u < 65536 := hu
      _ = 2 ^ 16 := by norm_num
      _ ≤ 2 ^ (12 + i) := Nat.pow_le_pow_right (by norm_num) (by omega)
    have hi4 : ¬(12 + i - 12 < 4) := by omega
    simp [Nat.testBit_lt_two_pow hbig, h4, hi4]

theorem ldiff_low_mask (u : ℕ) (hu : u < 65536) :
    Nat.ldiff 4095 (65535 - u) = u % 4096 := by
  apply Nat.eq_of_testBit_eq
  intro i
  have hsub : (65535 - u) = 2 ^ 16 - (u + 1) := by omega
  have hu16 : u < 2 ^ 16 := by norm_num [hu]
  have h1 : (4095 : ℕ) = 2 ^ 12 - 1 := by norm_num
  have h2 : (4096 : ℕ) = 2 ^ 12 := by norm_num
  rw [Nat.testBit_ldiff, hsub, Nat.testBit_two_pow_sub_succ hu16, h1, h2,
    Nat.testBit_two_pow_sub_one, Nat.testBit_mod_two_pow]
  by_cases h12 : i < 12
  · have h16 : i < 16 := by omega
    simp [h12, h16]
  · simp [h12]

theorem ldiff_high_mask (u : ℕ) (hu : u < 65536) :
    (Nat.ldiff 61440 (65535 - u)) >>> 12 = u / 4096 := by
  apply Nat.eq_of_testBit_eq
  intro i
  have hsub : (65535 - u) = 2 ^ 16 - (u + 1) := by omega
  have hu16 : u < 2 ^ 16 := by norm_num [hu]
  have h2 : (4096 : ℕ) = 2 ^ 12 := by norm_num
  rw [Nat.testBit_shiftRight, Nat.testBit_ldiff, testBit_hi_mask, hsub,
    Nat.testBit_two_pow_sub_succ hu16, h2, ← Nat.shiftRight_eq_div_pow,
    Nat.testBit_shiftRight]
  by_cases h4 : i < 4
  · have h16 : 12 + i < 16 := by omega
    have hge : 12 + i ≥ 12 := by omega
    have hlt : 12 + i - 12 < 4 := by omega
    simp [h16, hge, hlt, h4]
  · have hbig : u < 2 ^ (12 + i) := by
      calc u < 65536 := hu
      _ = 2 ^ 16 := by norm_num
      _ ≤ 2 ^ (12 + i) := Nat.pow_le_pow_right (by norm_num) (by omega)
    have hi4 : ¬(12 + i - 12 < 4) := by omega
    have h16 : i < 4 → 12 + i < 16 := by omega
    simp [Nat.testBit_lt_two_pow hbig, hi4]
    exact h16

/-- For any 16-bit word, masking the signed reinterpretation with 0xFFF
extracts the low 12 bits and masking with 0xF000 then shifting right by 12
extracts the high 4 bits, in both the non-negative and the negative
two's-complement case. -/
theorem toInt16_mask_decomp (u : ℕ) (hu : u < 65536) :
    Int.land (toInt16 u) 4095 = Int.ofNat (u % 4096) ∧
    Int.land (toInt16 u) 61440 >>> (12 : ℤ) = Int.ofNat (u / 4096) := by
  unfold toInt16
  rw [Nat.mod_eq_of_lt hu]
  by_cases hpos : u < 32768
  · rw [if_pos hpos]
    constructor
    · show Int.ofNat (u &&& 4095) = Int.ofNat (u % 4096)
      rw [land_low_mask]
    · show Int.ofNat ((u &&& 61440) >>> 12) = Int.ofNat (u / 4096)
      rw [land_high_mask u hu]
  · rw [if_neg hpos]
    have hneg : ((u : ℕ) : ℤ) - 65536 = Int.negSucc (65535 - u) := by
      rw [Int.negSucc_eq]
      omega
    rw [hneg]
    constructor
    · show Int.ofNat (Nat.ldiff 4095 (65535 - u)) = Int.ofNat (u % 4096)
      rw [ldiff_low_mask u hu]
    · show Int.ofNat ((Nat.ldiff 61440 (65535 - u)) >>> 12) = Int.ofNat (u / 4096)
      rw [ldiff_high_mask u hu]

/-- C7: for every 2-byte optical payload, the decoded lux is
0.01 times (mantissa shifted left by exponent), where the mantissa is the
low 12 bits and the exponent the high 4 bits of the little-endian 16-bit
word, for negative signed raw values as well. -/
theorem C7_optical_mantissa_exponent (b0 b1 : ℕ) (hb0 : b0 < 256) (hb1 : b1 < 256) :
    optical_lux b0 b1 =
      (1 / 100 : ℚ) * ((((b0 + 256 * b1) % 4096 : ℕ) : ℚ) * 2 ^ ((b0 + 256 * b1) / 4096)) := by
  have hu : b0 + 256 * b1 < 65536 := by omega
  obtain ⟨hm, he⟩ := toInt16_mask_decomp (b0 + 256 * b1) hu
  show (1 / 100 : ℚ) *
      ((Int.land (toInt16 (b0 + 256 * b1)) 4095 <<<
        (Int.land (toInt16 (b0 + 256 * b1)) 61440 >>> (12 : ℤ)) : ℤ) : ℚ) = _
  rw [hm, he]
  have hsh : Int.ofNat ((b0 + 256 * b1) % 4096) <<< (Int.ofNat ((b0 + 256 * b1) / 4096) : ℤ) =
      Int.ofNat (Nat.shiftLeft' false ((b0 + 256 * b1) % 4096) ((b0 + 256 * b1) / 4096)) := rfl
  rw [hsh, Nat.shiftLeft'_false, Nat.shiftLeft_eq, Int.ofNat_eq_natCast]
  norm_cast

/-- C7 witness: raw 0x1064 arrives as bytes 0x64, 0x10; the mantissa is
0x1064 mod 4096 = 100, the exponent 0x1064 / 4096 = 1, and the lux value is
0.01 times (100 shifted left once) = 2. -/
theorem C7_optical_witness :
    (0x64 : ℕ) < 256 ∧ (0x10 : ℕ) < 256 ∧
    (0x64 + 256 * 0x10 : ℕ) % 4096 = 100 ∧ (0x64 + 256 * 0x10 : ℕ) / 4096 = 1 ∧
    optical_lux 0x64 0x10 = 2 := by
  refine ⟨by decide, by decide, by decide, by decide, ?_⟩
  rw [C7_optical_mantissa_exponent 0x64 0x10 (by decide) (by decide)]
  norm_num

theorem findSome?_append_match {α β : Type} (l₁ l₂ : List α) (f : α → Option β) :
    (l₁ ++ l₂).findSome? f =
      match l₁.findSome? f with
      | some v => some v
      | none => l₂.findSome? f := by
  induction l₁ with
  | nil => simp [List.findSome?]
  | cons x xs ih =>
    cases hfx : f x <;> simp [List.findSome?_cons, hfx, ih]

/-- Looking a key up in the fold of Python dict updates finds the value of
the last dictionary in the list containing the key, falling back to the
accumulator. -/
theorem foldl_dict_update_lookup (ds : List JDict) (acc : JDict) (k : String) :
    (ds.foldl dict_update acc) k =
      match ds.reverse.findSome? (fun d => d k) with
      | some v => some v
      | none => acc k := by
  induction ds generalizing acc with
  | nil => simp [List.findSome?]
  | cons d tl ih =>
    rw [List.foldl_cons, ih, List.reverse_cons, findSome?_append_match]
    cases htl : tl.reverse.findSome? (fun d => d k) <;>
      cases hd : d k <;>
      simp [List.findSome?, dict_update, htl, hd]

/-- C10: merging the per-device JSON files walks the file list in the fixed
`BLE_NAME_LIST` order and applies `dict.update`, so a key present in
several per-device objects takes the value of the last device holding it;
in particular the merged record's single Timestamp is the last merged
device's Timestamp, and the merge returns nothing at all when any expected
file is missing. -/
theorem C10_merge_semantics (files : List (Option JDict)) (ds : List JDict) :
    (none ∈ files → get_data_func files = none) ∧
    (files = ds.map some →
      ∃ m, get_data_func files = some m ∧
        (∀ k, m k = ds.reverse.findSome? (fun d => d k)) ∧
        (∀ dlast, ds.getLast? = some dlast →
          ∀ t, dlast "Timestamp" = some t → m "Timestamp" = some t)) := by
  constructor
  · intro hmem
    unfold get_data_func
    rw [if_neg]
    intro hall
    rw [List.all_eq_true] at hall
    have hbad := hall none hmem
    simp at hbad
  · rintro rfl
    have hfold : ((ds.map some).foldl
        (fun acc f => match f with
          | some d => dict_update acc d
          | none => acc)
        (fun _ => none) : JDict) = ds.foldl dict_update (fun _ => none) := by
      rw [List.foldl_map]
    have hk : ∀ k, (ds.foldl dict_update (fun _ => none) : JDict) k =
        ds.reverse.findSome? (fun d => d k) := by
      intro k
      rw [foldl_dict_update_lookup]
      cases hfind : ds.reverse.findSome? (fun d => d k) <;> simp
    refine ⟨ds.foldl dict_update (fun _ => none), ?_, hk, ?_⟩
    · unfold get_data_func
      rw [if_pos (by simp [List.all_eq_true]), hfold]
    · intro dlast hlast t ht
      rw [hk]
      have hrev : ds.reverse.head? = some dlast := by
        rw [List.head?_reverse, hlast]
      cases hds : ds.reverse with
      | nil => rw [hds] at hrev; simp at hrev
      | cons a tl =>
        rw [hds] at hrev
        simp at hrev
        subst hrev
        rw [List.findSome?_cons, ht]

/-- C10 witness: with the first file missing the merge yields nothing; with
both example files present the merged record takes Timestamp 2 from the
last device and keeps each device's own quaternion key. -/
theorem C10_merge_witness :
    get_data_func [some exDictA, none] = none ∧
    ∃ m, get_data_func [some exDictA, some exDictB] = some m ∧
      m "Timestamp" = some (PyVal.num 2) ∧ m "q0_neck" = some (PyVal.num 10) ∧
      m "q0_back" = some (PyVal.num 20) := by
  constructor
  · exact (C10_merge_semantics [some exDictA, none] []).1 (by simp)
  · obtain ⟨m, hm, hk, hlast⟩ :=
      (C10_merge_semantics [some exDictA, some exDictB] [exDictA, exDictB]).2 rfl
    refine ⟨m, hm, ?_, ?_, ?_⟩
    · exact hlast exDictB (by simp) (PyVal.num 2) (by simp [exDictB])
    · rw [hk]
      simp [exDictA, exDictB, List.findSome?]
    · rw [hk]
      simp [exDictA, exDictB, List.findSome?]
